import Mathlib

/-!
Verification of the request-instrumentation service in `src/app.ts`.

The program is an Express HTTP service with three endpoints
(`/api/data`, `/health`, `/metrics`), a Prometheus-style metrics
registry holding a duration histogram and a request counter, and a
Winston logger with a console sink and a remote (Loki) sink.  A
middleware monkey-patches `res.send`: the patched function first calls
the original `send`, then ends the duration timer (which records one
histogram observation and returns the elapsed seconds), then emits one
structured log record, then increments the request counter.

The embedding below models the observable state (histogram
observations, counter increments, log records delivered to the sinks)
together with an event trace that records the order of the side
effects, and models each endpoint handler.  Durations and the random
source are modelled as rationals.
-/

namespace ObsApp

/-- Label triple used by both metrics and mirrored in log records
(`method`, `route`, `status_code`), as built at app.ts:59 and
app.ts:68-72. -/
structure Labels where
  method : String
  route : String
  status_code : Nat
deriving DecidableEq, Repr

/-- Configuration of a histogram metric (app.ts:13-18). -/
structure HistogramDef where
  name : String
  help : String
  labelNames : List String
  buckets : List ℚ
deriving DecidableEq, Repr

/-- Configuration of a counter metric (app.ts:20-24). -/
structure CounterDef where
  name : String
  help : String
  labelNames : List String
deriving DecidableEq, Repr

/-- The duration histogram `http_request_duration_seconds`
(app.ts:13-18). -/
def httpRequestDurationMicroseconds : HistogramDef :=
  { name := "http_request_duration_seconds"
    help := "Duration of HTTP requests in seconds"
    labelNames := ["method", "route", "status_code"]
    buckets := [0.1, 0.3, 0.5, 0.7, 1, 3, 5, 7, 10] }

/-- The request counter `http_requests_total` (app.ts:20-24). -/
def httpRequestCounter : CounterDef :=
  { name := "http_requests_total"
    help := "Total number of HTTP requests"
    labelNames := ["method", "route", "status_code"] }

/-- An entry of the metrics registry.  `defaultProcessMetrics` stands
for the block of default metrics registered by
`client.collectDefaultMetrics({ register })` at app.ts:10.

Modelled from the spec: the implementation of `collectDefaultMetrics`
lives in the `prom-client` library, not in this repository; the spec
(§6) records its effect as "plus whatever default process metrics the
chosen metrics library exposes", registered into the same registry. -/
inductive Metric where
  | histogram (d : HistogramDef)
  | counter (d : CounterDef)
  | defaultProcessMetrics
deriving DecidableEq, Repr

/-- The metrics registry contents after startup: the default process
metrics collected at app.ts:10, then the two explicit
`register.registerMetric` calls at app.ts:27-28. -/
def register : List Metric :=
  [Metric.defaultProcessMetrics,
   Metric.histogram httpRequestDurationMicroseconds,
   Metric.counter httpRequestCounter]

/-- A structured log record as assembled at app.ts:61-66. -/
structure LogRecord where
  message : String
  method : String
  path : String
  statusCode : Nat
  responseTimeMs : ℚ
deriving DecidableEq, Repr

/-- Kinds of observable side effects of the patched `send`, in the
order they are traced: the original `send` call (app.ts:58), the
histogram observation performed by `end(...)` (app.ts:59), the log
emission (app.ts:61-66), the counter increment (app.ts:68-72). -/
inductive Event where
  | send
  | observe
  | log
  | inc
deriving DecidableEq, Repr

/-- Observable state of the instrumentation: histogram observations and
counter increments held by the registry, the records accepted by the
logger (the console sink receives every record), the records delivered
to the remote Loki sink, and the side-effect trace. -/
structure ObsState where
  observations : List (Labels × ℚ)
  increments : List Labels
  logStream : List LogRecord
  lokiSink : List LogRecord
  trace : List Event
deriving DecidableEq, Repr

/-- The state at process start: no samples, no logs, no events. -/
def initialState : ObsState :=
  { observations := [], increments := [], logStream := [], lokiSink := [], trace := [] }

/-- An inbound request as seen by the middleware: method and path
(app.ts:53, read at app.ts:59-63). -/
structure Req where
  method : String
  path : String
deriving DecidableEq, Repr

/-- Response bodies produced by the handlers: the `/health` payload
(app.ts:95), the `/api/data` payload (app.ts:85-88), the serialized
registry text returned by `/metrics` (app.ts:101), or an arbitrary raw
body for a generic `send` call. -/
inductive Body where
  | health
  | data (value : ℤ) (timestamp : String)
  | metricsExport
  | raw (s : String)
deriving DecidableEq, Repr

/-- A response object: status code (Express defaults it to 200),
optional content type, the body once finalized, and whether the
response has been finalized. -/
structure Res where
  statusCode : Nat
  contentType : Option String
  body : Option Body
  finished : Bool
deriving DecidableEq, Repr

/-- A fresh response before any handler runs: status 200, nothing sent. -/
def freshRes : Res :=
  { statusCode := 200, contentType := none, body := none, finished := false }

/-- The original, unpatched `res.send` saved at app.ts:55: finalizes
the response with the given body, altering nothing else. -/
def originalSend (body : Body) (res : Res) : Res :=
  { res with body := some body, finished := true }

/-- Model of `res.end` as used by the `/metrics` handler at app.ts:101: it
finalizes the response directly, not through the patched `send`. -/
def resEnd (body : Body) (res : Res) : Res :=
  { res with body := some body, finished := true }

/-- The label triple `\x7b method, route: req.path, status_code:
res.statusCode \x7d` built at app.ts:59 (and again, identically, at
app.ts:68-72). -/
def sendLabels (req : Req) (res : Res) : Labels :=
  { method := req.method, route := req.path, status_code := res.statusCode }

/-- The structured log record assembled at app.ts:61-66:
`responseTimeMs` is the timer result (in seconds) times 1000. -/
def mkLogRecord (req : Req) (res : Res) (responseTime : ℚ) : LogRecord :=
  { message := "Request processed"
    method := req.method
    path := req.path
    statusCode := res.statusCode
    responseTimeMs := responseTime * 1000 }

/-- Model of `end(labels)` on the duration timer (app.ts:59): records one
observation of the elapsed seconds into the histogram. -/
def observeHistogram (l : Labels) (seconds : ℚ) (st : ObsState) : ObsState :=
  { st with observations := st.observations ++ [(l, seconds)]
            trace := st.trace ++ [Event.observe] }

/-- Model of `logger.info` (app.ts:61): it hands the record to the logger.  The
console sink always receives it; the remote Loki sink receives it only
when reachable (on a connection error the transport merely reports the
error locally, app.ts:43).  Either way the call returns normally. -/
def loggerInfo (lokiReachable : Bool) (r : LogRecord) (st : ObsState) : ObsState :=
  { st with logStream := st.logStream ++ [r]
            lokiSink := st.lokiSink ++ (if lokiReachable then [r] else [])
            trace := st.trace ++ [Event.log] }

/-- Model of `httpRequestCounter.inc(labels)` (app.ts:68-72). -/
def incCounter (l : Labels) (st : ObsState) : ObsState :=
  { st with increments := st.increments ++ [l]
            trace := st.trace ++ [Event.inc] }

/-- The patched `res.send` installed by the middleware (app.ts:57-75).
It calls the original `send` with the same body, then ends the timer
(one histogram observation, yielding the elapsed seconds), then emits
one log record, then increments the counter, and returns the response.
`elapsed` is the seconds measured by the timer started at app.ts:54. -/
def patchedSend (lokiReachable : Bool) (req : Req) (elapsed : ℚ) (body : Body)
    (res : Res) (st : ObsState) : Res × ObsState :=
  let res1 := originalSend body res
  let st1 := { st with trace := st.trace ++ [Event.send] }
  let l := sendLabels req res1
  let st2 := observeHistogram l elapsed st1
  let st3 := loggerInfo lokiReachable (mkLogRecord req res1 elapsed) st2
  let st4 := incCounter l st3
  (res1, st4)

/-- The three routes of the service (app.ts:81-102). -/
inductive Route where
  | apiData
  | health
  | metrics
deriving DecidableEq, Repr

/-- The request path of each route. -/
def routePath : Route → String
  | Route.apiData => "/api/data"
  | Route.health => "/health"
  | Route.metrics => "/metrics"

/-- Model of `Math.floor(Math.random() * 100)` at app.ts:86, with the random
source value `r`. -/
def apiDataValue (r : ℚ) : ℤ :=
  ⌊r * 100⌋

/-- The content type set by the `/metrics` handler (app.ts:100), the
registry's Prometheus text exposition content type. -/
def registerContentType : String :=
  "text/plain; version=0.0.4; charset=utf-8"

/-- Handling of one complete GET request to one of the three
endpoints, starting from a fresh response.  `/api/data` (app.ts:81-91)
builds its JSON payload from the random value `r` and timestamp `ts`
and finalizes via `res.json`, which dispatches through the patched
`send`; `/health` (app.ts:94-96) likewise finalizes via `res.json`;
`/metrics` (app.ts:99-102) sets the content type and finalizes via
`res.end`, which the middleware did not patch, so no instrumentation
runs for it.  `elapsed` is the timer reading at finalize time. -/
def handleRequest (lokiReachable : Bool) (route : Route) (r : ℚ) (ts : String)
    (elapsed : ℚ) (st : ObsState) : Res × ObsState :=
  let req : Req := { method := "GET", path := routePath route }
  match route with
  | Route.apiData =>
      patchedSend lokiReachable req elapsed (Body.data (apiDataValue r) ts)
        { freshRes with contentType := some "application/json" } st
  | Route.health =>
      patchedSend lokiReachable req elapsed Body.health
        { freshRes with contentType := some "application/json" } st
  | Route.metrics =>
      (resEnd Body.metricsExport { freshRes with contentType := some registerContentType }, st)

/-- The label triple produced for a GET request to a route: the
handlers never change the status code, so it is Express's default 200. -/
def routeLabels (route : Route) : Labels :=
  { method := "GET", route := routePath route, status_code := 200 }

/-- The metric name of a registry entry; the default process metrics
block carries library-defined names, not one of the two explicit ones. -/
def metricName : Metric → Option String
  | Metric.histogram d => some d.name
  | Metric.counter d => some d.name
  | Metric.defaultProcessMetrics => none

/-- Iterated invocation of the patched `send` on the same response:
`sendN n` invokes it `n` times, threading the response and the
observable state. -/
def sendN (lokiReachable : Bool) (req : Req) (elapsed : ℚ) (body : Body) :
    Nat → Res → ObsState → Res × ObsState
  | 0, res, st => (res, st)
  | n + 1, res, st =>
      let p := patchedSend lokiReachable req elapsed body res st
      sendN lokiReachable req elapsed body n p.1 p.2

/-- C1 (counterexample): a GET /metrics request completes (the response
is finalized), yet it produces no log record, no histogram observation
and no counter increment, because the handler finalizes via `res.end`
rather than the patched `send` — so the claim "every request to any
endpoint that completes produces exactly one log record and one metric
sample pair" fails at this request. -/
theorem metrics_request_completes_without_sample_set :
    (handleRequest true Route.metrics 0 "t" 0 initialState).1.finished = true ∧
    ¬ ((handleRequest true Route.metrics 0 "t" 0 initialState).2.logStream.length
          = initialState.logStream.length + 1 ∧
       (handleRequest true Route.metrics 0 "t" 0 initialState).2.observations.length
          = initialState.observations.length + 1 ∧
       (handleRequest true Route.metrics 0 "t" 0 initialState).2.increments.length
          = initialState.increments.length + 1) := by
  decide

/-- C1 (amended): every request finalized through the patched `send`
(both non-metrics endpoints) produces exactly one histogram
observation, one counter increment and one log record, all carrying
the identical label values (method, route = path, status code) derived
from the same response outcome. -/
theorem send_finalized_request_emits_one_sample_set
    (lok : Bool) (route : Route) (r : ℚ) (ts : String) (elapsed : ℚ) (st : ObsState)
    (h : route ≠ Route.metrics) :
    (handleRequest lok route r ts elapsed st).2.observations
        = st.observations ++ [(routeLabels route, elapsed)] ∧
    (handleRequest lok route r ts elapsed st).2.increments
        = st.increments ++ [routeLabels route] ∧
    (handleRequest lok route r ts elapsed st).2.logStream
        = st.logStream ++ [{ message := "Request processed"
                             method := (routeLabels route).method
                             path := (routeLabels route).route
                             statusCode := (routeLabels route).status_code
                             responseTimeMs := elapsed * 1000 }] := by
  cases route with
  | apiData => exact ⟨rfl, rfl, rfl⟩
  | health => exact ⟨rfl, rfl, rfl⟩
  | metrics => exact absurd rfl h

/-- C1 (witness): the amended theorem applied to a GET /health request
from the initial state. -/
theorem send_finalized_request_emits_one_sample_set_witness :
    Route.health ≠ Route.metrics ∧
    ((handleRequest true Route.health 0 "t" 0 initialState).2.observations
        = initialState.observations ++ [(routeLabels Route.health, 0)] ∧
     (handleRequest true Route.health 0 "t" 0 initialState).2.increments
        = initialState.increments ++ [routeLabels Route.health] ∧
     (handleRequest true Route.health 0 "t" 0 initialState).2.logStream
        = initialState.logStream ++ [{ message := "Request processed"
                                       method := (routeLabels Route.health).method
                                       path := (routeLabels Route.health).route
                                       statusCode := (routeLabels Route.health).status_code
                                       responseTimeMs := 0 * 1000 }]) :=
  ⟨by decide,
   send_finalized_request_emits_one_sample_set true Route.health 0 "t" 0 initialState
     (by decide)⟩

/-- C2 (counterexample): the patched `send` does not perform the
counter increment before the log emission: the actual side-effect
trace is send, observe, log, inc — not the claimed send, observe, inc,
log — so the claimed order (3) elapsed, (4) histogram, (5) counter,
(6) log fails on the code. -/
theorem counter_increment_does_not_precede_log_emission :
    ¬ ((patchedSend true { method := "GET", path := "/health" } 0 Body.health freshRes
          initialState).2.trace
        = [Event.send, Event.observe, Event.inc, Event.log]) := by
  decide

/-- C2 (amended): at finalize time the middleware performs its side
effects synchronously, in this order, before returning: the original
send, then elapsed-time computation together with the histogram
observation, then the log emission, then the counter increment. -/
theorem finalize_effect_order
    (lok : Bool) (req : Req) (elapsed : ℚ) (body : Body) (res : Res) (st : ObsState) :
    (patchedSend lok req elapsed body res st).2.trace
      = st.trace ++ [Event.send, Event.observe, Event.log, Event.inc] := by
  simp [patchedSend, observeHistogram, loggerInfo, incCounter]

/-- C3: the patched `send` returns exactly the response the original
`send` produces for the handler's body — same status code, same body —
so the middleware alters neither the status nor the client-visible
bytes. -/
theorem middleware_preserves_response
    (lok : Bool) (req : Req) (elapsed : ℚ) (body : Body) (res : Res) (st : ObsState) :
    (patchedSend lok req elapsed body res st).1 = originalSend body res ∧
    (patchedSend lok req elapsed body res st).1.statusCode = res.statusCode ∧
    (patchedSend lok req elapsed body res st).1.body = some body :=
  ⟨rfl, rfl, rfl⟩

/-- C4: a GET /metrics request leaves the whole observability state
(histogram observations, counter increments, log stream, sinks, trace)
unchanged, because its handler finalizes via `res.end` rather than the
patched `send`. -/
theorem metrics_request_leaves_observability_state_unchanged
    (lok : Bool) (r : ℚ) (ts : String) (elapsed : ℚ) (st : ObsState) :
    (handleRequest lok Route.metrics r ts elapsed st).2 = st ∧
    (handleRequest lok Route.metrics r ts elapsed st).1
      = resEnd Body.metricsExport { freshRes with contentType := some registerContentType } :=
  ⟨rfl, rfl⟩

/-- C5: the response delivered for any request is the same whether the
remote log sink is reachable or not, and so is the stream of records
accepted by the logger: a failing Loki sink never alters the HTTP
response in flight. -/
theorem loki_sink_failure_does_not_change_response
    (lok lok' : Bool) (route : Route) (r : ℚ) (ts : String) (elapsed : ℚ) (st : ObsState) :
    (handleRequest lok route r ts elapsed st).1
        = (handleRequest lok' route r ts elapsed st).1 ∧
    (handleRequest lok route r ts elapsed st).2.logStream
        = (handleRequest lok' route r ts elapsed st).2.logStream := by
  cases route <;> exact ⟨rfl, rfl⟩

/-- C6: a GET /health request always yields status 200 with the
`\x7bstatus:"ok"\x7d` body, whatever the prior state: the handler reads
no mutable state. -/
theorem health_always_ok
    (lok : Bool) (r : ℚ) (ts : String) (elapsed : ℚ) (st : ObsState) :
    (handleRequest lok Route.health r ts elapsed st).1
      = { statusCode := 200, contentType := some "application/json",
          body := some Body.health, finished := true } :=
  rfl

/-- C7: for every value of the random source in [0, 1), the `value`
field of the GET /api/data response is an integer in the inclusive
range [0, 99]. -/
theorem api_data_value_in_range
    (lok : Bool) (r : ℚ) (ts : String) (elapsed : ℚ) (st : ObsState)
    (h0 : 0 ≤ r) (h1 : r < 1) :
    (handleRequest lok Route.apiData r ts elapsed st).1.body
        = some (Body.data (apiDataValue r) ts) ∧
    0 ≤ apiDataValue r ∧ apiDataValue r ≤ 99 := by
  refine ⟨rfl, ?_, ?_⟩
  · exact Int.floor_nonneg.mpr (mul_nonneg h0 (by norm_num))
  · have hlt : apiDataValue r < 100 := by
      have h100 : r * 100 < (100 : ℚ) := by linarith
      exact Int.floor_lt.mpr (by exact_mod_cast h100)
    omega

/-- C7 (witness): the range theorem applied at random value 0. -/
theorem api_data_value_in_range_witness :
    0 ≤ (0 : ℚ) ∧ (0 : ℚ) < 1 ∧
    ((handleRequest true Route.apiData 0 "t" 0 initialState).1.body
        = some (Body.data (apiDataValue 0) "t") ∧
     0 ≤ apiDataValue 0 ∧ apiDataValue 0 ≤ 99) :=
  ⟨le_refl 0, zero_lt_one,
   api_data_value_in_range true 0 "t" 0 initialState (le_refl 0) zero_lt_one⟩

/-- C8: the log record emitted at finalize time reports exactly 1000
times the elapsed-seconds value recorded into the histogram for the
same request. -/
theorem log_ms_equals_histogram_seconds
    (lok : Bool) (req : Req) (elapsed : ℚ) (body : Body) (res : Res) (st : ObsState) :
    (patchedSend lok req elapsed body res st).2.observations
        = st.observations ++ [(sendLabels req (originalSend body res), elapsed)] ∧
    (patchedSend lok req elapsed body res st).2.logStream
        = st.logStream ++ [mkLogRecord req (originalSend body res) elapsed] ∧
    (mkLogRecord req (originalSend body res) elapsed).responseTimeMs = 1000 * elapsed :=
  ⟨rfl, rfl, mul_comm elapsed 1000⟩

/-- C9: invoking the (patched) `send` N times for the same request
emits N full sample sets — N histogram observations, N counter
increments and N log records — with no deduplication. -/
theorem repeated_send_emits_sample_set_per_invocation
    (lok : Bool) (req : Req) (elapsed : ℚ) (body : Body) (n : Nat) (res : Res) (st : ObsState) :
    (sendN lok req elapsed body n res st).2.observations.length
        = st.observations.length + n ∧
    (sendN lok req elapsed body n res st).2.increments.length
        = st.increments.length + n ∧
    (sendN lok req elapsed body n res st).2.logStream.length
        = st.logStream.length + n := by
  induction n generalizing res st with
  | zero => simp [sendN]
  | succ k ih =>
      have h := ih (patchedSend lok req elapsed body res st).1
        (patchedSend lok req elapsed body res st).2
      have hobs : (patchedSend lok req elapsed body res st).2.observations.length
          = st.observations.length + 1 := by
        simp [patchedSend, observeHistogram, loggerInfo, incCounter]
      have hinc : (patchedSend lok req elapsed body res st).2.increments.length
          = st.increments.length + 1 := by
        simp [patchedSend, observeHistogram, loggerInfo, incCounter]
      have hlog : (patchedSend lok req elapsed body res st).2.logStream.length
          = st.logStream.length + 1 := by
        simp [patchedSend, observeHistogram, loggerInfo, incCounter]
      simp only [sendN]
      refine ⟨?_, ?_, ?_⟩
      · rw [h.1, hobs]; omega
      · rw [h.2.1, hinc]; omega
      · rw [h.2.2, hlog]; omega

/-- C10 (counterexample): the registry's registered metrics are not
named exactly `http_request_duration_seconds` and `http_requests_total`:
`collectDefaultMetrics({ register })` at app.ts:10 registers the
library's default process metrics into the same registry first. -/
theorem register_not_exactly_the_two_custom_metrics :
    ¬ (register.map metricName
        = [some "http_request_duration_seconds", some "http_requests_total"]) := by
  decide

/-- C10 (amended): the explicitly registered metrics are exactly the
histogram `http_request_duration_seconds` (labels method, route,
status_code; buckets 0.1, 0.3, 0.5, 0.7, 1, 3, 5, 7, 10) and the
counter `http_requests_total` (same label names); the registry
additionally holds the default process metrics collected at
app.ts:10. -/
theorem register_contents :
    register
      = [Metric.defaultProcessMetrics,
         Metric.histogram
           { name := "http_request_duration_seconds"
             help := "Duration of HTTP requests in seconds"
             labelNames := ["method", "route", "status_code"]
             buckets := [0.1, 0.3, 0.5, 0.7, 1, 3, 5, 7, 10] },
         Metric.counter
           { name := "http_requests_total"
             help := "Total number of HTTP requests"
             labelNames := ["method", "route", "status_code"] }] :=
  rfl

end ObsApp
